import Mathlib

/-!
Shallow embedding of the repetition-detection and form-scoring engine of the
physioapp repository, together with proofs of the frozen claims about it.

Sources embedded:
  * `src/src/utils/stateMachineAnalysis.ts` (class `RepetitionStateMachine`)
  * `src/src/utils/formAnalysis.ts` (`analyzeExercisePhase`, `compareToRaisedTemplate`)
  * `src/src/utils/poseUtils.ts` (`normalizePoseCoordinates`)

Modelling conventions:
  * JavaScript numbers appearing as data (landmark coordinates, thresholds,
    phase percentages) are modelled as rationals `ℚ`; quantities produced by
    `Math.sqrt` (3D distances) and values derived from them (accuracies) are
    modelled as reals `ℝ`.  `Math.round` is Mathlib's `round` (both compute
    `⌊x + 1/2⌋`).
  * `Date.now()` timestamps are explicit `ℤ` millisecond arguments threaded
    through the functions that read the clock in the source.
  * A possibly-missing landmark (a JS value that is `undefined`, `null`, or
    lacks numeric `x`/`y` fields) is `Option Point`; JS array indexing, which
    yields `undefined` out of range, is `nth`.
  * A JS method mutating `this` becomes a function `Machine → ... → Machine`
    (or `Machine × result` when the method also returns a value).
-/

namespace PhysioApp

/-- A 3D landmark point `{x, y, z}` (`PoseCoordinate` in the source). -/
structure Point where
  x : ℚ
  y : ℚ
  z : ℚ
deriving DecidableEq

/-- A landmark that may be missing/invalid. -/
abbrev Landmark := Option Point

/-- A pose: the landmark array delivered by the pose estimator. -/
abbrev Pose := List Landmark

/-- A recorded template frame (also a landmark array). -/
abbrev Frame := List Landmark

/-- JS array indexing `xs[i]`: out-of-range access yields `undefined` (`none`). -/
def nth (xs : List Landmark) (i : ℕ) : Landmark :=
  xs.getD i none

/-- `ExerciseTemplate` from `stateMachineAnalysis.ts` (the identical interface
in `formAnalysis.ts` is the same type).  Only `frames` is read by the engine. -/
structure ExerciseTemplate where
  name : String
  frames : List Frame
  duration : ℚ
  frameCount : ℕ
  createdAt : String

/-- The three states of the repetition state machine. -/
inductive RepState where
  | waiting_for_start
  | movement_in_progress
  | movement_at_end
deriving DecidableEq

/-- The `'left' | 'right' | 'both'` active-arm tag. -/
inductive Arm where
  | left
  | right
  | both
deriving DecidableEq

/-- The `'excellent' | 'good' | 'needs_improvement' | 'poor'` status tag. -/
inductive Status where
  | excellent
  | good
  | needs_improvement
  | poor
deriving DecidableEq

/-- The `'poor' | 'good' | 'excellent'` rep-quality tag. -/
inductive Quality where
  | poor
  | good
  | excellent
deriving DecidableEq

/-- The mutable fields of class `RepetitionStateMachine`
(`stateMachineAnalysis.ts`, lines 32-44). -/
structure Machine where
  repCount : ℕ
  repState : RepState
  proximityThreshold : ℚ
  startPoint : Landmark
  endPoint : Landmark
  lastStateChange : Option String
  stateStartTime : ℤ
  lastStateTransitionTime : ℤ
deriving DecidableEq

/-- `stateStabilityThreshold` (500 ms), a constant field of the class. -/
def stateStabilityThreshold : ℤ := 500

/-- `minTimeBetweenTransitions` (1000 ms), a constant field of the class. -/
def minTimeBetweenTransitions : ℤ := 1000

/-- `calculate3DDistance` (`stateMachineAnalysis.ts` lines 417-425; the same
function also appears verbatim in `formAnalysis.ts` lines 588-596): Euclidean
norm of the componentwise difference, with sentinel `1` when either point is
missing. -/
noncomputable def calculate3DDistance (point1 point2 : Landmark) : ℝ :=
  match point1, point2 with
  | some p, some q =>
      Real.sqrt (((p.x - q.x) * (p.x - q.x) + (p.y - q.y) * (p.y - q.y) +
        (p.z - q.z) * (p.z - q.z) : ℚ) : ℝ)
  | _, _ => 1

/-- `extractWristPosition` (lines 95-120): requires at least 6 entries, then
tries indices 4, 15 (right-wrist candidates) and 5, 16 (left-wrist candidates)
in that order, returning the first present landmark. -/
def extractWristPosition (frame : Frame) : Landmark :=
  if frame.length < 6 then none
  else nth frame 4 <|> nth frame 15 <|> nth frame 5 <|> nth frame 16

/-- Loop body of `findPeakPosition` (lines 81-87).  The accumulator holds
`(minY, peakFrame)`; the source initialises `minY = Infinity`, modelled as
`none`. -/
def peakStep (acc : Option ℚ × Frame) (frame : Frame) : Option ℚ × Frame :=
  match extractWristPosition frame with
  | some w =>
      match acc.1 with
      | some minY => if w.y < minY then (some w.y, frame) else acc
      | none => (some w.y, frame)
  | none => acc

/-- `findPeakPosition` (lines 77-90): the extracted wrist of the frame whose
wrist has minimal `y` (`peakFrame` starts at `frames[0]`). -/
def findPeakPosition (frames : List Frame) : Landmark :=
  extractWristPosition (frames.foldl peakStep (none, frames.headD [])).2

/-- The constructor plus `initializeTemplatePoints` (lines 46-72): a machine
starts with `repCount = 0` in `waiting_for_start`, threshold `0.15`, both
timers at the construction time, and start/end points derived from the
template (left `null` when the template has no frames). -/
def mkRepetitionStateMachine (template : ExerciseTemplate) (now : ℤ) : Machine :=
  if template.frames.isEmpty then
    { repCount := 0, repState := .waiting_for_start, proximityThreshold := 0.15,
      startPoint := none, endPoint := none, lastStateChange := none,
      stateStartTime := now, lastStateTransitionTime := now }
  else
    { repCount := 0, repState := .waiting_for_start, proximityThreshold := 0.15,
      startPoint := extractWristPosition (template.frames.headD []),
      endPoint := findPeakPosition template.frames, lastStateChange := none,
      stateStartTime := now, lastStateTransitionTime := now }

/-- Result of `determineActiveArm`. -/
structure ArmSelection where
  activeArm : Arm
  currentWrist : Landmark
deriving DecidableEq

/-- `determineActiveArm` (lines 193-233).  Landmarks 15/11 are the right
wrist/shoulder, 16/12 the left ones.  When all four are present the decision
table on `armHeight = shoulder.y - wrist.y` applies; otherwise the left side
is selected when its pair is present and a right landmark is missing, and the
default is the right side. -/
def determineActiveArm (pose : Pose) : ArmSelection :=
  let rightWrist := nth pose 15
  let rightShoulder := nth pose 11
  let leftWrist := nth pose 16
  let leftShoulder := nth pose 12
  match rightWrist, leftWrist, rightShoulder, leftShoulder with
  | some rw, some lw, some rs, some ls =>
      let rightArmHeight := rs.y - rw.y
      let leftArmHeight := ls.y - lw.y
      if (0.1 : ℚ) < |rightArmHeight| ∧ (0.1 : ℚ) < |leftArmHeight| then
        { activeArm := .both,
          currentWrist := if rightArmHeight > leftArmHeight then some rw else some lw }
      else if (0.1 : ℚ) < |leftArmHeight| ∧ ¬ (0.1 : ℚ) < |rightArmHeight| then
        { activeArm := .left, currentWrist := some lw }
      else
        { activeArm := .right, currentWrist := some rw }
  | _, _, _, _ =>
      if leftWrist.isSome && leftShoulder.isSome &&
          (!rightWrist.isSome || !rightShoulder.isSome) then
        { activeArm := .left, currentWrist := leftWrist }
      else
        { activeArm := .right, currentWrist := rightWrist }

/-- `processStateMachine` (lines 238-318).  The source first nulls
`lastStateChange`, then returns early under either debounce guard, then runs
the switch.  In the switch, each eligible transition sets a `newState` that
always differs from the current state, so the final
`if (shouldTransition && newState !== this.repState)` test is equivalent to
the per-case conditions inlined here; the `repCount++` of the
`movement_at_end` case and the three transition messages are inlined into
their branches. -/
noncomputable def processStateMachine (m : Machine) (currentTime : ℤ)
    (distanceToStart distanceToEnd : ℝ) : Machine :=
  if currentTime - m.lastStateTransitionTime < minTimeBetweenTransitions then
    { m with lastStateChange := none }
  else if currentTime - m.stateStartTime < stateStabilityThreshold then
    { m with lastStateChange := none }
  else
    match m.repState with
    | .waiting_for_start =>
        if distanceToStart < (m.proximityThreshold : ℝ) then
          { m with repState := .movement_in_progress,
                   stateStartTime := currentTime,
                   lastStateTransitionTime := currentTime,
                   lastStateChange := some "Start position reached. Movement beginning." }
        else { m with lastStateChange := none }
    | .movement_in_progress =>
        if distanceToEnd < (m.proximityThreshold : ℝ) then
          { m with repState := .movement_at_end,
                   stateStartTime := currentTime,
                   lastStateTransitionTime := currentTime,
                   lastStateChange := some "End position reached." }
        else { m with lastStateChange := none }
    | .movement_at_end =>
        if distanceToStart < (m.proximityThreshold : ℝ) then
          { m with repState := .waiting_for_start,
                   repCount := m.repCount + 1,
                   stateStartTime := currentTime,
                   lastStateTransitionTime := currentTime,
                   lastStateChange := some ("REP COMPLETE! Total reps: " ++ toString (m.repCount + 1)) }
        else { m with lastStateChange := none }

/-- `calculateAccuracy` (lines 323-341), a pure function of the (possibly just
updated) state and the two distances. -/
noncomputable def calculateAccuracy (state : RepState)
    (distanceToStart distanceToEnd : ℝ) : ℝ :=
  match state with
  | .waiting_for_start => max 0 (100 - distanceToStart * 200)
  | .movement_in_progress =>
      max 0 (min 100 (100 - distanceToStart * 100 - distanceToEnd * 100))
  | .movement_at_end => max 0 (100 - distanceToEnd * 200)

/-- The `{feedback, status, points}` triple of `generateFeedback`. -/
structure FeedbackResult where
  feedback : String
  status : Status
  points : ℕ
deriving DecidableEq

/-- `generateFeedback` (lines 346-403). -/
noncomputable def generateFeedback (accuracy : ℝ) (state : RepState) : FeedbackResult :=
  match state with
  | .waiting_for_start =>
      if (80 : ℝ) ≤ accuracy then
        ⟨"Perfect start position! Begin the movement.", .excellent, 5⟩
      else
        ⟨"Get into the starting position.", .poor, 0⟩
  | .movement_in_progress =>
      if (80 : ℝ) ≤ accuracy then
        ⟨"Excellent form! Keep moving smoothly.", .excellent, 10⟩
      else if (60 : ℝ) ≤ accuracy then
        ⟨"Good movement, stay on track.", .good, 7⟩
      else
        ⟨"Focus on your form and movement path.", .needs_improvement, 3⟩
  | .movement_at_end =>
      if (80 : ℝ) ≤ accuracy then
        ⟨"Perfect end position! Now return to start.", .excellent, 10⟩
      else if (60 : ℝ) ≤ accuracy then
        ⟨"Good end position. Return to start to complete the rep.", .good, 7⟩
      else
        ⟨"Raise your arm higher to reach the end position.", .needs_improvement, 3⟩

/-- `determineRepQuality` (lines 408-412). -/
noncomputable def determineRepQuality (accuracy : ℝ) : Quality :=
  if (85 : ℝ) ≤ accuracy then .excellent
  else if (70 : ℝ) ≤ accuracy then .good
  else .poor

/-- `debugInfo` of `StateMachineResult`.  The two rounded distances
`Math.round(d * 1000) / 1000` are rationals. -/
structure DebugInfo where
  distanceToStart : ℚ
  distanceToEnd : ℚ
  proximityThreshold : ℚ
  stateChange : Option String
deriving DecidableEq

/-- `StateMachineResult` (lines 3-18).  `accuracy` carries the
`Math.round`ed value the source stores in the result. -/
structure StateMachineResult where
  repCount : ℕ
  repState : RepState
  repQuality : Quality
  activeArm : Arm
  accuracy : ℤ
  feedback : String
  status : Status
  points : ℕ
  debugInfo : DebugInfo
deriving DecidableEq

/-- `createDefaultResult` (lines 430-447). -/
def createDefaultResult (m : Machine) (message : String) : StateMachineResult :=
  { repCount := m.repCount, repState := m.repState, repQuality := .poor,
    activeArm := .right, accuracy := 0, feedback := message, status := .poor,
    points := 0,
    debugInfo := { distanceToStart := 0, distanceToEnd := 0,
                   proximityThreshold := m.proximityThreshold, stateChange := none } }

/-- The main branch of `processPose` (lines 145-188): distances, state-machine
step, accuracy, feedback, quality, and result assembly. -/
noncomputable def processPoseMain (m : Machine) (currentWrist : Point)
    (activeArm : Arm) (now : ℤ) : Machine × StateMachineResult :=
  let distanceToStart := calculate3DDistance (some currentWrist) m.startPoint
  let distanceToEnd := calculate3DDistance (some currentWrist) m.endPoint
  let m2 := processStateMachine m now distanceToStart distanceToEnd
  let accuracy := calculateAccuracy m2.repState distanceToStart distanceToEnd
  let fb := generateFeedback accuracy m2.repState
  let repQuality := determineRepQuality accuracy
  (m2,
   { repCount := m2.repCount, repState := m2.repState, repQuality := repQuality,
     activeArm := activeArm, accuracy := round accuracy,
     feedback := fb.feedback, status := fb.status, points := fb.points,
     debugInfo := { distanceToStart := ((round (distanceToStart * 1000) : ℤ) : ℚ) / 1000,
                    distanceToEnd := ((round (distanceToEnd * 1000) : ℤ) : ℚ) / 1000,
                    proximityThreshold := m2.proximityThreshold,
                    stateChange := m2.lastStateChange } })

/-- `processPose` (lines 125-188).  A missing pose argument is modelled by the
empty list (both fail the `length < 16` check in the source). -/
noncomputable def processPose (m : Machine) (pose : Pose) (now : ℤ) :
    Machine × StateMachineResult :=
  if pose.length < 16 then
    (m, createDefaultResult m "No pose data available")
  else if m.startPoint = none ∨ m.endPoint = none then
    (m, createDefaultResult m "Template not properly initialized")
  else
    match determineActiveArm pose with
    | ⟨_, none⟩ => (m, createDefaultResult m "No wrist detected")
    | ⟨activeArm, some wrist⟩ => processPoseMain m wrist activeArm now

/-- `reset` (lines 465-470): zeroes the counter and state (not the timers). -/
def reset (m : Machine) : Machine :=
  { m with repCount := 0, repState := .waiting_for_start, lastStateChange := none }

/-- `setProximityThreshold` (lines 475-478): stores the value unconditionally. -/
def setProximityThreshold (m : Machine) (threshold : ℚ) : Machine :=
  { m with proximityThreshold := threshold }

/-- Running a list of `(pose, time)` ticks through `processPose`, keeping the
machine (one tick per pose-estimation frame). -/
noncomputable def runPoses (m : Machine) : List (Pose × ℤ) → Machine
  | [] => m
  | (pose, t) :: rest => runPoses (processPose m pose t).1 rest

/-! ## `formAnalysis.ts` -/

/-- The `'rest' | 'raising' | 'raised' | 'lowering'` phase tag. -/
inductive Phase where
  | rest
  | raising
  | raised
  | lowering
deriving DecidableEq

/-- Result record of `analyzeExercisePhase`. -/
structure PhaseAnalysis where
  phase : Phase
  phaseProgress : ℚ
  accuracy : ℝ
  activeArm : Arm

/-- The arm-selection block of `analyzeExercisePhase` (`formAnalysis.ts`
lines 142-179), the same decision table as `determineActiveArm` but reading
the reduced key-landmark layout: index 4/0 = right wrist/shoulder, 5/1 = left
wrist/shoulder.  Returns `(activeArm, currentWrist, currentShoulder)`. -/
def selectActiveArmForm (currentLandmarks : List Landmark) :
    Arm × Landmark × Landmark :=
  let rightWrist := nth currentLandmarks 4
  let rightShoulder := nth currentLandmarks 0
  let leftWrist := nth currentLandmarks 5
  let leftShoulder := nth currentLandmarks 1
  match rightWrist, leftWrist, rightShoulder, leftShoulder with
  | some rw, some lw, some rs, some ls =>
      let rightArmHeight := rs.y - rw.y
      let leftArmHeight := ls.y - lw.y
      if (0.1 : ℚ) < |rightArmHeight| ∧ (0.1 : ℚ) < |leftArmHeight| then
        (.both,
         if rightArmHeight > leftArmHeight then some rw else some lw,
         if rightArmHeight > leftArmHeight then some rs else some ls)
      else if (0.1 : ℚ) < |leftArmHeight| ∧ ¬ (0.1 : ℚ) < |rightArmHeight| then
        (.left, some lw, some ls)
      else
        (.right, some rw, some rs)
  | _, _, _, _ =>
      if leftWrist.isSome && leftShoulder.isSome &&
          (!rightWrist.isSome || !rightShoulder.isSome) then
        (.left, leftWrist, leftShoulder)
      else
        (.right, rightWrist, rightShoulder)

/-- Loop body of `compareToRaisedTemplate` (lines 244-273): the per-frame
accuracy, or `none` where the source loop does `continue` (frame shorter than
6, or a required landmark missing). -/
noncomputable def frameAccuracy (currentLandmarks : List Landmark)
    (templateFrame : Frame) (activeArm : Arm) : Option ℝ :=
  if templateFrame.length < 6 then none
  else
    let picks :=
      match activeArm with
      | .left => (nth currentLandmarks 5, nth templateFrame 5,
                  nth currentLandmarks 1, nth templateFrame 1)
      | _ => (nth currentLandmarks 4, nth templateFrame 4,
              nth currentLandmarks 0, nth templateFrame 0)
    match picks with
    | (some cw, some tw, some cs, some ts) =>
        let wristDistance := calculate3DDistance (some cw) (some tw)
        let shoulderDistance := calculate3DDistance (some cs) (some ts)
        let wristAccuracy := max 0 (100 - wristDistance * 150)
        let shoulderAccuracy := max 0 (100 - shoulderDistance * 150)
        some (wristAccuracy * 0.7 + shoulderAccuracy * 0.3)
    | _ => none

/-- `compareToRaisedTemplate` (lines 234-276): best accuracy against the last
30% of the template frames (`Math.floor(length * 0.7)` onward), clamped to
`[0, 100]`; `50` when that slice is empty. -/
noncomputable def compareToRaisedTemplate (currentLandmarks : List Landmark)
    (templateFrames : List Frame) (activeArm : Arm) : ℝ :=
  let raisedFrameStart := (((templateFrames.length : ℚ) * 0.7).floor).toNat
  let raisedFrames := templateFrames.drop raisedFrameStart
  if raisedFrames.length = 0 then 50
  else
    let bestAccuracy := raisedFrames.foldl
      (fun best f =>
        match frameAccuracy currentLandmarks f activeArm with
        | some a => max best a
        | none => best) 0
    max 0 (min 100 bestAccuracy)

/-- `analyzeExercisePhase` (lines 132-229).  The source computes the rest-phase
accuracy as `Math.random() * 20`; the random draw is the explicit `rand`
argument here.  The early-return for a missing selected wrist/shoulder
hardcodes `activeArm: 'right'` exactly as the source does. -/
noncomputable def analyzeExercisePhase (currentLandmarks : List Landmark)
    (templateFrames : List Frame) (rand : ℝ) : PhaseAnalysis :=
  if currentLandmarks.length < 8 ∨ templateFrames.length = 0 then
    ⟨.rest, 0, 0, .right⟩
  else
    match selectActiveArmForm currentLandmarks with
    | (activeArm, some currentWrist, some currentShoulder) =>
        let armHeight := currentShoulder.y - currentWrist.y
        let armHeightPercent : ℚ := max 0 (min 1 ((armHeight + 0.2) / 0.4))
        if armHeightPercent < 0.1 then
          ⟨.rest, 0, rand * 20, activeArm⟩
        else if armHeightPercent < 0.7 then
          ⟨.raising, (armHeightPercent - 0.1) / 0.6,
           30 + (((armHeightPercent - 0.1) / 0.6 : ℚ) : ℝ) * 40, activeArm⟩
        else if armHeightPercent < 0.9 then
          ⟨.raised, 1,
           compareToRaisedTemplate currentLandmarks templateFrames activeArm,
           activeArm⟩
        else
          ⟨.lowering, 1 - (armHeightPercent - 0.9) / 0.1,
           30 + (((1 - (armHeightPercent - 0.9) / 0.1 : ℚ)) : ℝ) * 40, activeArm⟩
    | (_, _, _) => ⟨.rest, 0, 0, .right⟩

/-! ## `poseUtils.ts` -/

/-- `Math.min(...values)` over a non-empty list (the empty case, `Infinity`
in JS, is never reached by the caller here and is defaulted to `0`). -/
def listMin : List ℚ → ℚ
  | [] => 0
  | a :: rest => rest.foldl min a

/-- `Math.max(...values)` over a non-empty list (empty case defaulted). -/
def listMax : List ℚ → ℚ
  | [] => 0
  | a :: rest => rest.foldl max a

/-- One normalized component `(v - lo) / (hi - lo) || 0`
(`poseUtils.ts` lines 32-36).  When `hi = lo` the JS division of the (then
necessarily zero) numerator gives `NaN` and `|| 0` yields `0`, modelled by the
explicit zero branch; when the quotient itself is `0`, `|| 0` also yields `0`,
which the quotient branch already produces. -/
def normComponent (v lo hi : ℚ) : ℚ :=
  if hi - lo = 0 then 0 else (v - lo) / (hi - lo)

/-- `normalizePoseCoordinates` (`poseUtils.ts` lines 16-37). -/
def normalizePoseCoordinates (coordinates : List Point) : List Point :=
  if coordinates.length = 0 then coordinates
  else
    let xValues := coordinates.map Point.x
    let yValues := coordinates.map Point.y
    let zValues := coordinates.map Point.z
    let minX := listMin xValues
    let maxX := listMax xValues
    let minY := listMin yValues
    let maxY := listMax yValues
    let minZ := listMin zValues
    let maxZ := listMax zValues
    coordinates.map fun coord =>
      { x := normComponent coord.x minX maxX,
        y := normComponent coord.y minY maxY,
        z := normComponent coord.z minZ maxZ }

/-! ## Basic facts about the embedded distance -/

lemma calculate3DDistance_nonneg (p q : Landmark) : 0 ≤ calculate3DDistance p q := by
  cases p <;> cases q <;> simp only [calculate3DDistance] <;>
    norm_num [Real.sqrt_nonneg]

lemma calculate3DDistance_self (p : Point) :
    calculate3DDistance (some p) (some p) = 0 := by
  simp [calculate3DDistance]

lemma calculate3DDistance_none_left (q : Landmark) :
    calculate3DDistance none q = 1 := by
  cases q <;> rfl

lemma calculate3DDistance_none_right (p : Landmark) :
    calculate3DDistance p none = 1 := by
  cases p <;> rfl

/-! ## Step lemmas for `processStateMachine` -/

lemma processStateMachine_guard (m : Machine) (now : ℤ) (d1 d2 : ℝ)
    (h : now - m.lastStateTransitionTime < minTimeBetweenTransitions ∨
         now - m.stateStartTime < stateStabilityThreshold) :
    processStateMachine m now d1 d2 = { m with lastStateChange := none } := by
  unfold processStateMachine
  by_cases h1 : now - m.lastStateTransitionTime < minTimeBetweenTransitions
  · rw [if_pos h1]
  · rw [if_neg h1, if_pos (h.resolve_left h1)]

lemma processStateMachine_repCount (m : Machine) (now : ℤ) (d1 d2 : ℝ) :
    (processStateMachine m now d1 d2).repCount = m.repCount ∨
    ((processStateMachine m now d1 d2).repCount = m.repCount + 1 ∧
      m.repState = RepState.movement_at_end ∧
      (processStateMachine m now d1 d2).repState = RepState.waiting_for_start) := by
  obtain ⟨rc, rs, pt, sp, ep, lsc, sst, ltt⟩ := m
  cases rs <;> simp only [processStateMachine] <;> split_ifs <;> simp

lemma processStateMachine_frozen (m : Machine) (now : ℤ) (d1 d2 : ℝ) :
    (processStateMachine m now d1 d2).proximityThreshold = m.proximityThreshold ∧
    (processStateMachine m now d1 d2).startPoint = m.startPoint ∧
    (processStateMachine m now d1 d2).endPoint = m.endPoint := by
  obtain ⟨rc, rs, pt, sp, ep, lsc, sst, ltt⟩ := m
  cases rs <;> simp only [processStateMachine] <;> split_ifs <;> exact ⟨rfl, rfl, rfl⟩

lemma processStateMachine_start (m : Machine) (now : ℤ) (d1 d2 : ℝ)
    (hg1 : minTimeBetweenTransitions ≤ now - m.lastStateTransitionTime)
    (hg2 : stateStabilityThreshold ≤ now - m.stateStartTime)
    (hst : m.repState = RepState.waiting_for_start)
    (hd : d1 < (m.proximityThreshold : ℝ)) :
    processStateMachine m now d1 d2 =
      { m with repState := RepState.movement_in_progress,
               stateStartTime := now, lastStateTransitionTime := now,
               lastStateChange := some "Start position reached. Movement beginning." } := by
  obtain ⟨rc, rs, pt, sp, ep, lsc, sst, ltt⟩ := m
  cases rs
  case waiting_for_start =>
    simp only [processStateMachine]
    rw [if_neg (not_lt.2 hg1), if_neg (not_lt.2 hg2), if_pos hd]
  all_goals simp at hst

lemma processStateMachine_mid (m : Machine) (now : ℤ) (d1 d2 : ℝ)
    (hg1 : minTimeBetweenTransitions ≤ now - m.lastStateTransitionTime)
    (hg2 : stateStabilityThreshold ≤ now - m.stateStartTime)
    (hst : m.repState = RepState.movement_in_progress)
    (hd : d2 < (m.proximityThreshold : ℝ)) :
    processStateMachine m now d1 d2 =
      { m with repState := RepState.movement_at_end,
               stateStartTime := now, lastStateTransitionTime := now,
               lastStateChange := some "End position reached." } := by
  obtain ⟨rc, rs, pt, sp, ep, lsc, sst, ltt⟩ := m
  cases rs
  case movement_in_progress =>
    simp only [processStateMachine]
    rw [if_neg (not_lt.2 hg1), if_neg (not_lt.2 hg2), if_pos hd]
  all_goals simp at hst

lemma processStateMachine_end (m : Machine) (now : ℤ) (d1 d2 : ℝ)
    (hg1 : minTimeBetweenTransitions ≤ now - m.lastStateTransitionTime)
    (hg2 : stateStabilityThreshold ≤ now - m.stateStartTime)
    (hst : m.repState = RepState.movement_at_end)
    (hd : d1 < (m.proximityThreshold : ℝ)) :
    processStateMachine m now d1 d2 =
      { m with repState := RepState.waiting_for_start,
               repCount := m.repCount + 1,
               stateStartTime := now, lastStateTransitionTime := now,
               lastStateChange := some ("REP COMPLETE! Total reps: " ++ toString (m.repCount + 1)) } := by
  obtain ⟨rc, rs, pt, sp, ep, lsc, sst, ltt⟩ := m
  cases rs
  case movement_at_end =>
    simp only [processStateMachine]
    rw [if_neg (not_lt.2 hg1), if_neg (not_lt.2 hg2), if_pos hd]
  all_goals simp at hst

lemma processStateMachine_nonpos (m : Machine) (now : ℤ) (d1 d2 : ℝ)
    (ht : m.proximityThreshold ≤ 0) (h1 : 0 ≤ d1) (h2 : 0 ≤ d2) :
    processStateMachine m now d1 d2 = { m with lastStateChange := none } := by
  have htr : (m.proximityThreshold : ℝ) ≤ 0 := by exact_mod_cast ht
  have hc1 : ¬ d1 < (m.proximityThreshold : ℝ) := not_lt.2 (le_trans htr h1)
  have hc2 : ¬ d2 < (m.proximityThreshold : ℝ) := not_lt.2 (le_trans htr h2)
  obtain ⟨rc, rs, pt, sp, ep, lsc, sst, ltt⟩ := m
  simp only at htr hc1 hc2
  cases rs <;> simp only [processStateMachine] <;> split_ifs <;> rfl

/-! ## Path lemmas for `processPose` -/

lemma processPose_short (m : Machine) (pose : Pose) (now : ℤ)
    (h : pose.length < 16) :
    processPose m pose now = (m, createDefaultResult m "No pose data available") := by
  unfold processPose
  rw [if_pos h]

lemma processPose_uninit (m : Machine) (pose : Pose) (now : ℤ)
    (hlen : ¬ pose.length < 16) (h : m.startPoint = none ∨ m.endPoint = none) :
    processPose m pose now =
      (m, createDefaultResult m "Template not properly initialized") := by
  unfold processPose
  rw [if_neg hlen, if_pos h]

lemma processPose_nowrist (m : Machine) (pose : Pose) (now : ℤ) (a : Arm)
    (hlen : ¬ pose.length < 16) (h : ¬ (m.startPoint = none ∨ m.endPoint = none))
    (hsel : determineActiveArm pose = ⟨a, none⟩) :
    processPose m pose now = (m, createDefaultResult m "No wrist detected") := by
  unfold processPose
  rw [if_neg hlen, if_neg h, hsel]

lemma processPose_main (m : Machine) (pose : Pose) (now : ℤ) (a : Arm) (w : Point)
    (hlen : ¬ pose.length < 16) (h : ¬ (m.startPoint = none ∨ m.endPoint = none))
    (hsel : determineActiveArm pose = ⟨a, some w⟩) :
    processPose m pose now = processPoseMain m w a now := by
  unfold processPose
  rw [if_neg hlen, if_neg h, hsel]

lemma processPose_fst_cases (m : Machine) (pose : Pose) (now : ℤ) :
    (processPose m pose now).1 = m ∨
    ∃ w : Point, (determineActiveArm pose).currentWrist = some w ∧
      (processPose m pose now).1 =
        processStateMachine m now
          (calculate3DDistance (some w) m.startPoint)
          (calculate3DDistance (some w) m.endPoint) := by
  by_cases hlen : pose.length < 16
  · left
    rw [processPose_short m pose now hlen]
  · by_cases hsp : m.startPoint = none ∨ m.endPoint = none
    · left
      rw [processPose_uninit m pose now hlen hsp]
    · rcases hsel : determineActiveArm pose with ⟨a, cw⟩
      cases cw with
      | none =>
          left
          rw [processPose_nowrist m pose now a hlen hsp hsel]
      | some w =>
          right
          refine ⟨w, rfl, ?_⟩
          rw [processPose_main m pose now a w hlen hsp hsel]
          rfl

/-! ## Accuracy and rounding bounds -/

lemma calculateAccuracy_nonneg (st : RepState) (d1 d2 : ℝ) :
    0 ≤ calculateAccuracy st d1 d2 := by
  cases st <;> simp only [calculateAccuracy] <;> exact le_max_left _ _

lemma calculateAccuracy_le (st : RepState) (d1 d2 : ℝ)
    (h1 : 0 ≤ d1) (h2 : 0 ≤ d2) : calculateAccuracy st d1 d2 ≤ 100 := by
  cases st <;> simp only [calculateAccuracy]
  · exact max_le (by norm_num) (by nlinarith)
  · exact max_le (by norm_num) (min_le_left _ _)
  · exact max_le (by norm_num) (by nlinarith)

lemma round_mem_Icc (x : ℝ) (h0 : 0 ≤ x) (h100 : x ≤ 100) :
    (0 : ℤ) ≤ round x ∧ round x ≤ 100 := by
  rw [round_eq]
  constructor
  · exact Int.le_floor.2 (by push_cast; linarith)
  · have h : (⌊x + 1 / 2⌋ : ℤ) < 101 := Int.floor_lt.2 (by push_cast; linarith)
    omega

/-! ## Counter monotonicity -/

lemma processPose_repCount_step (m : Machine) (pose : Pose) (now : ℤ) :
    (processPose m pose now).1.repCount = m.repCount ∨
    ((processPose m pose now).1.repCount = m.repCount + 1 ∧
      m.repState = RepState.movement_at_end ∧
      (processPose m pose now).1.repState = RepState.waiting_for_start) := by
  rcases processPose_fst_cases m pose now with h | ⟨w, _, h⟩
  · left
    rw [h]
  · rw [h]
    exact processStateMachine_repCount m now _ _

lemma processPose_repCount_le (m : Machine) (pose : Pose) (now : ℤ) :
    m.repCount ≤ (processPose m pose now).1.repCount := by
  rcases processPose_repCount_step m pose now with h | ⟨h, _, _⟩ <;> omega

lemma runPoses_repCount_le (calls : List (Pose × ℤ)) (m : Machine) :
    m.repCount ≤ (runPoses m calls).repCount := by
  induction calls generalizing m with
  | nil => exact le_refl _
  | cons c rest ih =>
      obtain ⟨p, t⟩ := c
      simp only [runPoses]
      exact le_trans (processPose_repCount_le m p t) (ih _)

/-! ## Constructor lemmas -/

lemma mkRepetitionStateMachine_base (template : ExerciseTemplate) (now : ℤ) :
    (mkRepetitionStateMachine template now).repCount = 0 ∧
    (mkRepetitionStateMachine template now).repState = RepState.waiting_for_start ∧
    (mkRepetitionStateMachine template now).proximityThreshold = 0.15 ∧
    (mkRepetitionStateMachine template now).stateStartTime = now ∧
    (mkRepetitionStateMachine template now).lastStateTransitionTime = now := by
  unfold mkRepetitionStateMachine
  split_ifs <;> exact ⟨rfl, rfl, rfl, rfl, rfl⟩

lemma mkRepetitionStateMachine_empty (template : ExerciseTemplate) (now : ℤ)
    (h : template.frames = []) :
    (mkRepetitionStateMachine template now).startPoint = none ∧
    (mkRepetitionStateMachine template now).endPoint = none := by
  unfold mkRepetitionStateMachine
  rw [if_pos (by simp [h])]
  exact ⟨rfl, rfl⟩

lemma mkRepetitionStateMachine_points (template : ExerciseTemplate) (now : ℤ)
    (h : template.frames ≠ []) :
    (mkRepetitionStateMachine template now).startPoint =
      extractWristPosition (template.frames.headD []) ∧
    (mkRepetitionStateMachine template now).endPoint =
      findPeakPosition template.frames := by
  unfold mkRepetitionStateMachine
  rw [if_neg (by simp [h])]
  exact ⟨rfl, rfl⟩

/-! ## Preservation lemmas -/

lemma runPoses_uninit (calls : List (Pose × ℤ)) (m : Machine)
    (h : m.startPoint = none) : runPoses m calls = m := by
  induction calls generalizing m with
  | nil => rfl
  | cons c rest ih =>
      obtain ⟨p, t⟩ := c
      simp only [runPoses]
      have hm : (processPose m p t).1 = m := by
        by_cases hlen : p.length < 16
        · rw [processPose_short m p t hlen]
        · rw [processPose_uninit m p t hlen (Or.inl h)]
      rw [hm]
      exact ih m h

lemma processPose_nonpos (m : Machine) (pose : Pose) (now : ℤ)
    (ht : m.proximityThreshold ≤ 0) :
    (processPose m pose now).1.repState = m.repState ∧
    (processPose m pose now).1.repCount = m.repCount ∧
    (processPose m pose now).1.proximityThreshold = m.proximityThreshold := by
  rcases processPose_fst_cases m pose now with h | ⟨w, _, h⟩
  · rw [h]
    exact ⟨rfl, rfl, rfl⟩
  · rw [h, processStateMachine_nonpos m now _ _ ht
      (calculate3DDistance_nonneg _ _) (calculate3DDistance_nonneg _ _)]
    exact ⟨rfl, rfl, rfl⟩

lemma runPoses_nonpos (calls : List (Pose × ℤ)) (m : Machine)
    (ht : m.proximityThreshold ≤ 0) :
    (runPoses m calls).repState = m.repState ∧
    (runPoses m calls).repCount = m.repCount := by
  induction calls generalizing m with
  | nil => exact ⟨rfl, rfl⟩
  | cons c rest ih =>
      obtain ⟨p, t⟩ := c
      simp only [runPoses]
      obtain ⟨h1, h2, h3⟩ := processPose_nonpos m p t ht
      obtain ⟨ih1, ih2⟩ := ih (processPose m p t).1 (by rw [h3]; exact ht)
      exact ⟨ih1.trans h1, ih2.trans h2⟩

lemma processPose_guard_fst (m : Machine) (pose : Pose) (now : ℤ)
    (h : now - m.lastStateTransitionTime < minTimeBetweenTransitions ∨
         now - m.stateStartTime < stateStabilityThreshold) :
    (processPose m pose now).1.repState = m.repState ∧
    (processPose m pose now).1.repCount = m.repCount ∧
    (processPose m pose now).1.stateStartTime = m.stateStartTime ∧
    (processPose m pose now).1.lastStateTransitionTime = m.lastStateTransitionTime := by
  rcases processPose_fst_cases m pose now with hc | ⟨w, _, hc⟩
  · rw [hc]
    exact ⟨rfl, rfl, rfl, rfl⟩
  · rw [hc, processStateMachine_guard m now _ _ h]
    exact ⟨rfl, rfl, rfl, rfl⟩

/-! ## Result-side lemmas -/

lemma processPoseMain_fst (m : Machine) (w : Point) (a : Arm) (now : ℤ) :
    (processPoseMain m w a now).1 =
      processStateMachine m now (calculate3DDistance (some w) m.startPoint)
        (calculate3DDistance (some w) m.endPoint) := rfl

lemma processPoseMain_snd_accuracy (m : Machine) (w : Point) (a : Arm) (now : ℤ) :
    (processPoseMain m w a now).2.accuracy =
      round (calculateAccuracy (processPoseMain m w a now).1.repState
        (calculate3DDistance (some w) m.startPoint)
        (calculate3DDistance (some w) m.endPoint)) := rfl

lemma processPoseMain_snd_feedback (m : Machine) (w : Point) (a : Arm) (now : ℤ) :
    (processPoseMain m w a now).2.feedback =
      (generateFeedback
        (calculateAccuracy (processPoseMain m w a now).1.repState
          (calculate3DDistance (some w) m.startPoint)
          (calculate3DDistance (some w) m.endPoint))
        (processPoseMain m w a now).1.repState).feedback := rfl

lemma processPose_accuracy_cases (m : Machine) (pose : Pose) (now : ℤ) :
    (processPose m pose now).2.accuracy = 0 ∨
    ∃ w : Point,
      (processPose m pose now).2.accuracy =
        round (calculateAccuracy
          (processStateMachine m now (calculate3DDistance (some w) m.startPoint)
            (calculate3DDistance (some w) m.endPoint)).repState
          (calculate3DDistance (some w) m.startPoint)
          (calculate3DDistance (some w) m.endPoint)) := by
  by_cases hlen : pose.length < 16
  · left
    rw [processPose_short m pose now hlen]
    rfl
  · by_cases hsp : m.startPoint = none ∨ m.endPoint = none
    · left
      rw [processPose_uninit m pose now hlen hsp]
      rfl
    · rcases hsel : determineActiveArm pose with ⟨a, cw⟩
      cases cw with
      | none =>
          left
          rw [processPose_nowrist m pose now a hlen hsp hsel]
          rfl
      | some w =>
          right
          refine ⟨w, ?_⟩
          rw [processPose_main m pose now a w hlen hsp hsel]
          rfl

lemma processPose_snd_state_guard (m : Machine) (pose : Pose) (now : ℤ)
    (h : now - m.lastStateTransitionTime < minTimeBetweenTransitions ∨
         now - m.stateStartTime < stateStabilityThreshold) :
    (processPose m pose now).2.repState = m.repState ∧
    (processPose m pose now).2.repCount = m.repCount := by
  by_cases hlen : pose.length < 16
  · rw [processPose_short m pose now hlen]
    exact ⟨rfl, rfl⟩
  · by_cases hsp : m.startPoint = none ∨ m.endPoint = none
    · rw [processPose_uninit m pose now hlen hsp]
      exact ⟨rfl, rfl⟩
    · rcases hsel : determineActiveArm pose with ⟨a, cw⟩
      cases cw with
      | none =>
          rw [processPose_nowrist m pose now a hlen hsp hsel]
          exact ⟨rfl, rfl⟩
      | some w =>
          rw [processPose_main m pose now a w hlen hsp hsel]
          constructor
          · show (processPoseMain m w a now).1.repState = m.repState
            rw [processPoseMain_fst, processStateMachine_guard m now _ _ h]
          · show (processPoseMain m w a now).1.repCount = m.repCount
            rw [processPoseMain_fst, processStateMachine_guard m now _ _ h]

/-! ## One-tick transition lemmas (the C3 scenario steps) -/

lemma determineActiveArm_eta (pose : Pose) (w : Point)
    (hw : (determineActiveArm pose).currentWrist = some w) :
    determineActiveArm pose = ⟨(determineActiveArm pose).activeArm, some w⟩ := by
  rw [← hw]

lemma tick_from_start (m : Machine) (pose : Pose) (now : ℤ) (s : Point)
    (hlen : 16 ≤ pose.length)
    (hw : (determineActiveArm pose).currentWrist = some s)
    (hsp : m.startPoint = some s) (hep : m.endPoint ≠ none)
    (hthr : 0 < m.proximityThreshold)
    (hg1 : minTimeBetweenTransitions ≤ now - m.lastStateTransitionTime)
    (hg2 : stateStabilityThreshold ≤ now - m.stateStartTime)
    (hst : m.repState = RepState.waiting_for_start) :
    (processPose m pose now).1 =
      { m with repState := RepState.movement_in_progress,
               stateStartTime := now, lastStateTransitionTime := now,
               lastStateChange := some "Start position reached. Movement beginning." } := by
  have hd1 : calculate3DDistance (some s) m.startPoint = 0 := by
    rw [hsp, calculate3DDistance_self]
  rw [processPose_main m pose now (determineActiveArm pose).activeArm s
      (by omega) (by simp [hsp, hep]) (determineActiveArm_eta pose s hw),
    processPoseMain_fst, hd1]
  exact processStateMachine_start m now 0 _ hg1 hg2 hst (by exact_mod_cast hthr)

lemma tick_from_mid (m : Machine) (pose : Pose) (now : ℤ) (e : Point)
    (hlen : 16 ≤ pose.length)
    (hw : (determineActiveArm pose).currentWrist = some e)
    (hsp : m.startPoint ≠ none) (hep : m.endPoint = some e)
    (hthr : 0 < m.proximityThreshold)
    (hg1 : minTimeBetweenTransitions ≤ now - m.lastStateTransitionTime)
    (hg2 : stateStabilityThreshold ≤ now - m.stateStartTime)
    (hst : m.repState = RepState.movement_in_progress) :
    (processPose m pose now).1 =
      { m with repState := RepState.movement_at_end,
               stateStartTime := now, lastStateTransitionTime := now,
               lastStateChange := some "End position reached." } := by
  have hd2 : calculate3DDistance (some e) m.endPoint = 0 := by
    rw [hep, calculate3DDistance_self]
  rw [processPose_main m pose now (determineActiveArm pose).activeArm e
      (by omega) (by simp [hsp, hep]) (determineActiveArm_eta pose e hw),
    processPoseMain_fst, hd2]
  exact processStateMachine_mid m now _ 0 hg1 hg2 hst (by exact_mod_cast hthr)

lemma tick_from_end (m : Machine) (pose : Pose) (now : ℤ) (s : Point)
    (hlen : 16 ≤ pose.length)
    (hw : (determineActiveArm pose).currentWrist = some s)
    (hsp : m.startPoint = some s) (hep : m.endPoint ≠ none)
    (hthr : 0 < m.proximityThreshold)
    (hg1 : minTimeBetweenTransitions ≤ now - m.lastStateTransitionTime)
    (hg2 : stateStabilityThreshold ≤ now - m.stateStartTime)
    (hst : m.repState = RepState.movement_at_end) :
    (processPose m pose now).1 =
      { m with repState := RepState.waiting_for_start,
               repCount := m.repCount + 1,
               stateStartTime := now, lastStateTransitionTime := now,
               lastStateChange := some ("REP COMPLETE! Total reps: " ++ toString (m.repCount + 1)) } := by
  have hd1 : calculate3DDistance (some s) m.startPoint = 0 := by
    rw [hsp, calculate3DDistance_self]
  rw [processPose_main m pose now (determineActiveArm pose).activeArm s
      (by omega) (by simp [hsp, hep]) (determineActiveArm_eta pose s hw),
    processPoseMain_fst, hd1]
  exact processStateMachine_end m now 0 _ hg1 hg2 hst (by exact_mod_cast hthr)

/-! ## The claims -/

/-- **C1.** Over every sequence of `processPose` calls on one machine (no
intervening `reset`), `repCount` never decreases; and on any single call it
either stays unchanged or increments by exactly 1, the latter exactly on a
`movement_at_end → waiting_for_start` transition.  No other transition and no
non-transitioning tick modifies `repCount`. -/
theorem C1_repCount_monotone :
    (∀ (m : Machine) (calls : List (Pose × ℤ)),
      m.repCount ≤ (runPoses m calls).repCount) ∧
    (∀ (m : Machine) (pose : Pose) (now : ℤ),
      (processPose m pose now).1.repCount = m.repCount ∨
      ((processPose m pose now).1.repCount = m.repCount + 1 ∧
        m.repState = RepState.movement_at_end ∧
        (processPose m pose now).1.repState = RepState.waiting_for_start)) :=
  ⟨fun m calls => runPoses_repCount_le calls m,
   fun m pose now => processPose_repCount_step m pose now⟩

/-- **C2.** A `processPose` call within 1000 ms of the last transition or
within 500 ms of entering the current state changes neither `repState` nor
`repCount` nor the two timers, and it still returns a result whose accuracy
and feedback are computed for the current (unchanged) state. -/
theorem C2_debounce_guard (m : Machine) (pose : Pose) (now : ℤ)
    (h : now - m.lastStateTransitionTime < minTimeBetweenTransitions ∨
         now - m.stateStartTime < stateStabilityThreshold) :
    (processPose m pose now).1.repState = m.repState ∧
    (processPose m pose now).1.repCount = m.repCount ∧
    (processPose m pose now).1.stateStartTime = m.stateStartTime ∧
    (processPose m pose now).1.lastStateTransitionTime = m.lastStateTransitionTime ∧
    (processPose m pose now).2.repState = m.repState ∧
    (processPose m pose now).2.repCount = m.repCount ∧
    ∀ (a : Arm) (w : Point),
      determineActiveArm pose = ⟨a, some w⟩ →
      ¬ pose.length < 16 → ¬ (m.startPoint = none ∨ m.endPoint = none) →
      (processPose m pose now).2.accuracy =
        round (calculateAccuracy m.repState
          (calculate3DDistance (some w) m.startPoint)
          (calculate3DDistance (some w) m.endPoint)) ∧
      (processPose m pose now).2.feedback =
        (generateFeedback
          (calculateAccuracy m.repState
            (calculate3DDistance (some w) m.startPoint)
            (calculate3DDistance (some w) m.endPoint)) m.repState).feedback := by
  obtain ⟨hf1, hf2, hf3, hf4⟩ := processPose_guard_fst m pose now h
  obtain ⟨hs1, hs2⟩ := processPose_snd_state_guard m pose now h
  refine ⟨hf1, hf2, hf3, hf4, hs1, hs2, ?_⟩
  intro a w hsel hlen hsp
  have hrs : (processPoseMain m w a now).1.repState = m.repState := by
    rw [processPoseMain_fst, processStateMachine_guard m now _ _ h]
  rw [processPose_main m pose now a w hlen hsp hsel]
  constructor
  · rw [processPoseMain_snd_accuracy, hrs]
  · rw [processPoseMain_snd_feedback, hrs]

/-- **C3.** From a freshly constructed machine with valid start/end points and
the default threshold `0.15`, a pose sequence whose selected active wrist is
exactly at `startPoint`, then exactly at `endPoint`, then exactly at
`startPoint`, with consecutive ticks (and the first tick after construction)
at least 1100 ms apart, drives `repState` through
`waiting_for_start → movement_in_progress → movement_at_end →
waiting_for_start` in that exact order and ends with `repCount = 1`. -/
theorem C3_full_cycle (template : ExerciseTemplate) (s e : Point)
    (p1 p2 p3 : Pose) (t0 t1 t2 t3 : ℤ) (m0 m1 m2 m3 : Machine)
    (hm0 : m0 = mkRepetitionStateMachine template t0)
    (hsp : m0.startPoint = some s) (hep : m0.endPoint = some e)
    (hm1 : m1 = (processPose m0 p1 t1).1)
    (hm2 : m2 = (processPose m1 p2 t2).1)
    (hm3 : m3 = (processPose m2 p3 t3).1)
    (h1 : (determineActiveArm p1).currentWrist = some s)
    (h2 : (determineActiveArm p2).currentWrist = some e)
    (h3 : (determineActiveArm p3).currentWrist = some s)
    (hl1 : 16 ≤ p1.length) (hl2 : 16 ≤ p2.length) (hl3 : 16 ≤ p3.length)
    (ht1 : t0 + 1100 ≤ t1) (ht2 : t1 + 1100 ≤ t2) (ht3 : t2 + 1100 ≤ t3) :
    m0.repState = RepState.waiting_for_start ∧ m0.repCount = 0 ∧
    m1.repState = RepState.movement_in_progress ∧ m1.repCount = 0 ∧
    m2.repState = RepState.movement_at_end ∧ m2.repCount = 0 ∧
    m3.repState = RepState.waiting_for_start ∧ m3.repCount = 1 := by
  obtain ⟨hc0, hs0, hth0, hsst0, hltt0⟩ := mkRepetitionStateMachine_base template t0
  rw [← hm0] at hc0 hs0 hth0 hsst0 hltt0
  have e1 : (processPose m0 p1 t1).1 =
      { m0 with repState := RepState.movement_in_progress,
                stateStartTime := t1, lastStateTransitionTime := t1,
                lastStateChange := some "Start position reached. Movement beginning." } :=
    tick_from_start m0 p1 t1 s hl1 h1 hsp (by simp [hep])
      (by rw [hth0]; norm_num)
      (by rw [hltt0]; simp only [minTimeBetweenTransitions]; omega)
      (by rw [hsst0]; simp only [stateStabilityThreshold]; omega)
      hs0
  have hm1e : m1 = { m0 with repState := RepState.movement_in_progress,
                             stateStartTime := t1, lastStateTransitionTime := t1,
                             lastStateChange := some "Start position reached. Movement beginning." } := by
    rw [hm1, e1]
  have f1State : m1.repState = RepState.movement_in_progress := by rw [hm1e]
  have f1Count : m1.repCount = 0 := by
    rw [hm1e]
    exact hc0
  have f1sp : m1.startPoint = some s := by
    rw [hm1e]
    exact hsp
  have f1ep : m1.endPoint = some e := by
    rw [hm1e]
    exact hep
  have f1th : m1.proximityThreshold = 0.15 := by
    rw [hm1e]
    exact hth0
  have f1sst : m1.stateStartTime = t1 := by rw [hm1e]
  have f1ltt : m1.lastStateTransitionTime = t1 := by rw [hm1e]
  have e2 : (processPose m1 p2 t2).1 =
      { m1 with repState := RepState.movement_at_end,
                stateStartTime := t2, lastStateTransitionTime := t2,
                lastStateChange := some "End position reached." } :=
    tick_from_mid m1 p2 t2 e hl2 h2 (by simp [f1sp]) f1ep
      (by rw [f1th]; norm_num)
      (by rw [f1ltt]; simp only [minTimeBetweenTransitions]; omega)
      (by rw [f1sst]; simp only [stateStabilityThreshold]; omega)
      f1State
  have hm2e : m2 = { m1 with repState := RepState.movement_at_end,
                             stateStartTime := t2, lastStateTransitionTime := t2,
                             lastStateChange := some "End position reached." } := by
    rw [hm2, e2]
  have f2State : m2.repState = RepState.movement_at_end := by rw [hm2e]
  have f2Count : m2.repCount = 0 := by
    rw [hm2e]
    exact f1Count
  have f2sp : m2.startPoint = some s := by
    rw [hm2e]
    exact f1sp
  have f2ep : m2.endPoint = some e := by
    rw [hm2e]
    exact f1ep
  have f2th : m2.proximityThreshold = 0.15 := by
    rw [hm2e]
    exact f1th
  have f2sst : m2.stateStartTime = t2 := by rw [hm2e]
  have f2ltt : m2.lastStateTransitionTime = t2 := by rw [hm2e]
  have e3 : (processPose m2 p3 t3).1 =
      { m2 with repState := RepState.waiting_for_start,
                repCount := m2.repCount + 1,
                stateStartTime := t3, lastStateTransitionTime := t3,
                lastStateChange := some ("REP COMPLETE! Total reps: " ++ toString (m2.repCount + 1)) } :=
    tick_from_end m2 p3 t3 s hl3 h3 f2sp (by simp [f2ep])
      (by rw [f2th]; norm_num)
      (by rw [f2ltt]; simp only [minTimeBetweenTransitions]; omega)
      (by rw [f2sst]; simp only [stateStabilityThreshold]; omega)
      f2State
  have f3State : m3.repState = RepState.waiting_for_start := by rw [hm3, e3]
  have f3Count : m3.repCount = 1 := by
    rw [hm3, e3]
    show m2.repCount + 1 = 1
    rw [f2Count]
  exact ⟨hs0, hc0, f1State, f1Count, f2State, f2Count, f3State, f3Count⟩

/-- **C4.** A `processPose` call whose pose is missing (empty) or has fewer
than 16 landmarks, or for which the start/end points were never established,
returns a default result with accuracy 0, points 0, status and quality
`poor`, and a diagnostic feedback string, and leaves the machine unchanged
(in a total Lean function, nothing throws); with a zero-frame template
`repCount` stays 0 and the state stays `waiting_for_start` after any number
of ticks. -/
theorem C4_default_results :
    (∀ (m : Machine) (pose : Pose) (now : ℤ),
      pose.length < 16 ∨ m.startPoint = none ∨ m.endPoint = none →
      (processPose m pose now).1 = m ∧
      (processPose m pose now).2.accuracy = 0 ∧
      (processPose m pose now).2.points = 0 ∧
      (processPose m pose now).2.status = Status.poor ∧
      (processPose m pose now).2.repQuality = Quality.poor ∧
      ((processPose m pose now).2.feedback = "No pose data available" ∨
       (processPose m pose now).2.feedback = "Template not properly initialized") ∧
      (processPose m pose now).2.repState = m.repState ∧
      (processPose m pose now).2.repCount = m.repCount) ∧
    (∀ (template : ExerciseTemplate) (t0 : ℤ) (calls : List (Pose × ℤ)),
      template.frames = [] →
      (runPoses (mkRepetitionStateMachine template t0) calls).repCount = 0 ∧
      (runPoses (mkRepetitionStateMachine template t0) calls).repState =
        RepState.waiting_for_start) := by
  constructor
  · intro m pose now h
    by_cases hlen : pose.length < 16
    · rw [processPose_short m pose now hlen]
      exact ⟨rfl, rfl, rfl, rfl, rfl, Or.inl rfl, rfl, rfl⟩
    · rw [processPose_uninit m pose now hlen (h.resolve_left hlen)]
      exact ⟨rfl, rfl, rfl, rfl, rfl, Or.inr rfl, rfl, rfl⟩
  · intro template t0 calls h
    rw [runPoses_uninit calls _ (mkRepetitionStateMachine_empty template t0 h).1]
    exact ⟨(mkRepetitionStateMachine_base template t0).1,
           (mkRepetitionStateMachine_base template t0).2.1⟩

/-- **C5.** `calculateAccuracy` computes exactly the three per-state formulas
of the claim, and the accuracy returned by every `processPose` call — on every
input pose whatsoever, degenerate ones included — lies in `[0, 100]`. -/
theorem C5_accuracy_formulas_and_bounds :
    (∀ d1 d2 : ℝ,
      calculateAccuracy RepState.waiting_for_start d1 d2 =
        max 0 (100 - d1 * 200) ∧
      calculateAccuracy RepState.movement_in_progress d1 d2 =
        max 0 (min 100 (100 - d1 * 100 - d2 * 100)) ∧
      calculateAccuracy RepState.movement_at_end d1 d2 =
        max 0 (100 - d2 * 200)) ∧
    (∀ (m : Machine) (pose : Pose) (now : ℤ),
      0 ≤ (processPose m pose now).2.accuracy ∧
      (processPose m pose now).2.accuracy ≤ 100) := by
  constructor
  · intro d1 d2
    exact ⟨rfl, rfl, rfl⟩
  · intro m pose now
    rcases processPose_accuracy_cases m pose now with h | ⟨w, h⟩
    · rw [h]
      exact ⟨le_refl 0, by norm_num⟩
    · rw [h]
      exact round_mem_Icc _ (calculateAccuracy_nonneg _ _ _)
        (calculateAccuracy_le _ _ _ (calculate3DDistance_nonneg _ _)
          (calculate3DDistance_nonneg _ _))

/-- **C9.** `setProximityThreshold` stores any supplied value unvalidated;
every computed 3D distance is nonnegative (and `1` for missing points); hence
with any stored threshold `t ≤ 0` the strict comparison `distance < t` never
holds, and every subsequent `processPose` call — for all time — leaves
`repState` and `repCount` unchanged. -/
theorem C9_nonpositive_threshold_freezes :
    (∀ (m : Machine) (t : ℚ),
      (setProximityThreshold m t).proximityThreshold = t) ∧
    (∀ p q : Landmark, 0 ≤ calculate3DDistance p q) ∧
    (∀ q : Landmark,
      calculate3DDistance none q = 1 ∧ calculate3DDistance q none = 1) ∧
    (∀ (m : Machine) (calls : List (Pose × ℤ)),
      m.proximityThreshold ≤ 0 →
      (runPoses m calls).repState = m.repState ∧
      (runPoses m calls).repCount = m.repCount) :=
  ⟨fun _ _ => rfl,
   calculate3DDistance_nonneg,
   fun q => ⟨calculate3DDistance_none_left q, calculate3DDistance_none_right q⟩,
   fun m calls ht => runPoses_nonpos calls m ht⟩

/-- **C6.** The active-arm selector with both wrists and shoulders present:
per-side `armHeight = shoulder.y - wrist.y`, an arm moving iff
`|armHeight| > 0.1`; both moving yields `both` with the wrist of the side
with the strictly larger armHeight, only-left moving yields `left` with the
left wrist, otherwise `right` with the right wrist; and when only the left
pair is present (a right landmark missing) the left side is selected. -/
theorem C6_active_arm_selection :
    (∀ (pose : Pose) (rwp lwp rsp lsp : Point),
      nth pose 15 = some rwp → nth pose 16 = some lwp →
      nth pose 11 = some rsp → nth pose 12 = some lsp →
      (((0.1 : ℚ) < |rsp.y - rwp.y| → (0.1 : ℚ) < |lsp.y - lwp.y| →
        (determineActiveArm pose).activeArm = Arm.both ∧
        (lsp.y - lwp.y < rsp.y - rwp.y →
          (determineActiveArm pose).currentWrist = some rwp) ∧
        (rsp.y - rwp.y < lsp.y - lwp.y →
          (determineActiveArm pose).currentWrist = some lwp)) ∧
       ((0.1 : ℚ) < |lsp.y - lwp.y| → ¬ (0.1 : ℚ) < |rsp.y - rwp.y| →
        determineActiveArm pose = ⟨Arm.left, some lwp⟩) ∧
       (¬ ((0.1 : ℚ) < |rsp.y - rwp.y| ∧ (0.1 : ℚ) < |lsp.y - lwp.y|) →
        ¬ ((0.1 : ℚ) < |lsp.y - lwp.y| ∧ ¬ (0.1 : ℚ) < |rsp.y - rwp.y|) →
        determineActiveArm pose = ⟨Arm.right, some rwp⟩))) ∧
    (∀ (pose : Pose) (lwp lsp : Point),
      nth pose 16 = some lwp → nth pose 12 = some lsp →
      (nth pose 15 = none ∨ nth pose 11 = none) →
      determineActiveArm pose = ⟨Arm.left, some lwp⟩) := by
  constructor
  · intro pose rwp lwp rsp lsp h15 h16 h11 h12
    refine ⟨?_, ?_, ?_⟩
    · intro hr hl
      have hcond : (0.1 : ℚ) < |rsp.y - rwp.y| ∧ (0.1 : ℚ) < |lsp.y - lwp.y| :=
        ⟨hr, hl⟩
      refine ⟨?_, ?_, ?_⟩
      · simp only [determineActiveArm, h15, h16, h11, h12]
        rw [if_pos hcond]
      · intro hgt
        simp only [determineActiveArm, h15, h16, h11, h12]
        rw [if_pos hcond, if_pos hgt]
      · intro hlt
        simp only [determineActiveArm, h15, h16, h11, h12]
        rw [if_pos hcond, if_neg (not_lt.2 (le_of_lt hlt))]
    · intro hl hnr
      simp only [determineActiveArm, h15, h16, h11, h12]
      rw [if_neg (fun hc => hnr hc.1), if_pos ⟨hl, hnr⟩]
    · intro hn1 hn2
      simp only [determineActiveArm, h15, h16, h11, h12]
      rw [if_neg hn1, if_neg hn2]
  · intro pose lwp lsp h16 h12 hmiss
    rcases hmiss with h15 | h11
    · rcases h11v : nth pose 11 with _ | rsv <;>
        simp [determineActiveArm, h15, h16, h11v, h12]
    · rcases h15v : nth pose 15 with _ | rwv <;>
        simp [determineActiveArm, h15v, h16, h11, h12]

/-- Branch-level unfolding of `analyzeExercisePhase` once the selected wrist
and shoulder are known. -/
lemma analyzeExercisePhase_eq (lm : List Landmark) (frames : List Frame)
    (rand : ℝ) (arm : Arm) (w s : Point)
    (hcond : ¬ (lm.length < 8 ∨ frames.length = 0))
    (hsel : selectActiveArmForm lm = (arm, some w, some s)) :
    analyzeExercisePhase lm frames rand =
      (if max 0 (min 1 ((s.y - w.y + 0.2) / 0.4)) < 0.1 then
        ⟨Phase.rest, 0, rand * 20, arm⟩
       else if max 0 (min 1 ((s.y - w.y + 0.2) / 0.4)) < 0.7 then
        ⟨Phase.raising, (max 0 (min 1 ((s.y - w.y + 0.2) / 0.4)) - 0.1) / 0.6,
         30 + (((max 0 (min 1 ((s.y - w.y + 0.2) / 0.4)) - 0.1) / 0.6 : ℚ) : ℝ) * 40,
         arm⟩
       else if max 0 (min 1 ((s.y - w.y + 0.2) / 0.4)) < 0.9 then
        ⟨Phase.raised, 1, compareToRaisedTemplate lm frames arm, arm⟩
       else
        ⟨Phase.lowering, 1 - (max 0 (min 1 ((s.y - w.y + 0.2) / 0.4)) - 0.9) / 0.1,
         30 + (((1 - (max 0 (min 1 ((s.y - w.y + 0.2) / 0.4)) - 0.9) / 0.1 : ℚ)) : ℝ) * 40,
         arm⟩) := by
  unfold analyzeExercisePhase
  rw [if_neg hcond, hsel]

/-- **C7.** With an active wrist and shoulder found by the form analyzer and
`p = clamp((shoulder.y - wrist.y + 0.2)/0.4, 0, 1)`: `p < 0.1` yields phase
`rest`; `0.1 ≤ p < 0.7` yields `raising` with accuracy `30 + 40*((p-0.1)/0.6)`
(linear 30→70); `0.7 ≤ p < 0.9` yields `raised` with the best-match template
comparison as accuracy; `p ≥ 0.9` yields `lowering` with accuracy
`30 + 40*(1 - (p-0.9)/0.1)` (linear 70→30). -/
theorem C7_phase_classification (lm : List Landmark) (frames : List Frame)
    (rand : ℝ) (arm : Arm) (w s : Point) (p : ℚ)
    (hlen : 8 ≤ lm.length) (hfr : frames ≠ [])
    (hsel : selectActiveArmForm lm = (arm, some w, some s))
    (hp : p = max 0 (min 1 ((s.y - w.y + 0.2) / 0.4))) :
    (p < 0.1 → (analyzeExercisePhase lm frames rand).phase = Phase.rest) ∧
    (0.1 ≤ p → p < 0.7 →
      (analyzeExercisePhase lm frames rand).phase = Phase.raising ∧
      (analyzeExercisePhase lm frames rand).accuracy =
        30 + 40 * (((p - 0.1) / 0.6 : ℚ) : ℝ)) ∧
    (0.7 ≤ p → p < 0.9 →
      (analyzeExercisePhase lm frames rand).phase = Phase.raised ∧
      (analyzeExercisePhase lm frames rand).accuracy =
        compareToRaisedTemplate lm frames arm) ∧
    (0.9 ≤ p →
      (analyzeExercisePhase lm frames rand).phase = Phase.lowering ∧
      (analyzeExercisePhase lm frames rand).accuracy =
        30 + 40 * (((1 - (p - 0.9) / 0.1 : ℚ)) : ℝ)) := by
  have hcond : ¬ (lm.length < 8 ∨ frames.length = 0) := by
    push_neg
    exact ⟨by omega, by simpa using hfr⟩
  have key := analyzeExercisePhase_eq lm frames rand arm w s hcond hsel
  rw [← hp] at key
  refine ⟨?_, ?_, ?_, ?_⟩
  · intro h01
    rw [key, if_pos h01]
  · intro h1 h7
    rw [key, if_neg (not_lt.2 h1), if_pos h7]
    exact ⟨rfl, by push_cast; ring⟩
  · intro h7 h9
    rw [key, if_neg (not_lt.2 (by linarith)), if_neg (not_lt.2 h7), if_pos h9]
    exact ⟨rfl, rfl⟩
  · intro h9
    rw [key, if_neg (not_lt.2 (by linarith)), if_neg (not_lt.2 (by linarith)),
      if_neg (not_lt.2 h9)]
    exact ⟨rfl, by push_cast; ring⟩

/-! ## The peak-position fold -/

lemma peak_foldl_spec (fs : List Frame) (minY : ℚ) (fr : Frame) (w0 : Point)
    (hfr : extractWristPosition fr = some w0) (hmy : w0.y = minY) :
    ∃ w1 : Point,
      extractWristPosition (fs.foldl peakStep (some minY, fr)).2 = some w1 ∧
      w1.y ≤ minY ∧
      ((fs.foldl peakStep (some minY, fr)).2 = fr ∨
        (fs.foldl peakStep (some minY, fr)).2 ∈ fs) ∧
      ∀ f ∈ fs, ∀ w2 : Point, extractWristPosition f = some w2 → w1.y ≤ w2.y := by
  induction fs generalizing minY fr w0 with
  | nil =>
      refine ⟨w0, by simpa using hfr, le_of_eq hmy, Or.inl rfl, ?_⟩
      intro f hf
      exact absurd hf (List.not_mem_nil f)
  | cons f fs ih =>
      simp only [List.foldl_cons]
      cases hf : extractWristPosition f with
      | none =>
          have hstep : peakStep (some minY, fr) f = (some minY, fr) := by
            simp [peakStep, hf]
          rw [hstep]
          obtain ⟨w1, ha, hc, hd, he⟩ := ih minY fr w0 hfr hmy
          refine ⟨w1, ha, hc, ?_, ?_⟩
          · rcases hd with hd | hd
            · exact Or.inl hd
            · exact Or.inr (List.mem_cons_of_mem f hd)
          · intro g hg w2 hw2
            rcases List.mem_cons.1 hg with rfl | hg
            · rw [hf] at hw2
              exact Option.noConfusion hw2
            · exact he g hg w2 hw2
      | some wf =>
          by_cases hlt : wf.y < minY
          · have hstep : peakStep (some minY, fr) f = (some wf.y, f) := by
              simp [peakStep, hf, hlt]
            rw [hstep]
            obtain ⟨w1, ha, hc, hd, he⟩ := ih wf.y f wf hf rfl
            refine ⟨w1, ha, le_trans hc (le_of_lt hlt), ?_, ?_⟩
            · rcases hd with hd | hd
              · exact Or.inr (by rw [hd]; exact List.mem_cons_self f fs)
              · exact Or.inr (List.mem_cons_of_mem f hd)
            · intro g hg w2 hw2
              rcases List.mem_cons.1 hg with rfl | hg
              · rw [hf] at hw2
                rw [← Option.some.inj hw2]
                exact hc
              · exact he g hg w2 hw2
          · have hstep : peakStep (some minY, fr) f = (some minY, fr) := by
              simp [peakStep, hf, hlt]
            rw [hstep]
            obtain ⟨w1, ha, hc, hd, he⟩ := ih minY fr w0 hfr hmy
            refine ⟨w1, ha, hc, ?_, ?_⟩
            · rcases hd with hd | hd
              · exact Or.inl hd
              · exact Or.inr (List.mem_cons_of_mem f hd)
            · intro g hg w2 hw2
              rcases List.mem_cons.1 hg with rfl | hg
              · rw [hf] at hw2
                rw [← Option.some.inj hw2]
                exact le_trans hc (not_lt.1 hlt)
              · exact he g hg w2 hw2

/-- **C8 (amended).** For a template with at least 2 frames whose first frame
yields a valid extracted wrist `w`, construction establishes
`startPoint = some w` and a non-`none` `endPoint` that is the extracted wrist
of one of the frames and has minimal `y` among all extracted wrists. -/
theorem C8_template_points (template : ExerciseTemplate) (now : ℤ) (w : Point)
    (hlen : 2 ≤ template.frames.length)
    (hw : extractWristPosition (template.frames.headD []) = some w) :
    (mkRepetitionStateMachine template now).startPoint = some w ∧
    ∃ e : Point,
      (mkRepetitionStateMachine template now).endPoint = some e ∧
      (∃ f ∈ template.frames, extractWristPosition f = some e) ∧
      ∀ f ∈ template.frames, ∀ w2 : Point,
        extractWristPosition f = some w2 → e.y ≤ w2.y := by
  have hne : template.frames ≠ [] := by
    intro h
    rw [h] at hlen
    simp at hlen
  obtain ⟨hsp, hep⟩ := mkRepetitionStateMachine_points template now hne
  obtain ⟨f0, fs, hf0⟩ : ∃ f0 fs, template.frames = f0 :: fs := by
    cases hv : template.frames with
    | nil => exact absurd hv hne
    | cons a l => exact ⟨a, l, rfl⟩
  have hw0 : extractWristPosition f0 = some w := by
    rw [hf0] at hw
    simpa using hw
  refine ⟨by rw [hsp, hw], ?_⟩
  rw [hep, hf0]
  unfold findPeakPosition
  simp only [List.headD_cons, List.foldl_cons]
  have hstep : peakStep (none, f0) f0 = (some w.y, f0) := by
    simp [peakStep, hw0]
  rw [hstep]
  obtain ⟨w1, ha, hc, hd, he⟩ := peak_foldl_spec fs w.y f0 w hw0 rfl
  refine ⟨w1, ha, ?_, ?_⟩
  · rcases hd with hd | hd
    · refine ⟨f0, List.mem_cons_self f0 fs, ?_⟩
      rw [hd] at ha
      exact ha
    · exact ⟨(fs.foldl peakStep (some w.y, f0)).2, List.mem_cons_of_mem f0 hd, ha⟩
  · intro g hg w2 hw2
    rcases List.mem_cons.1 hg with rfl | hg
    · rw [hw0] at hw2
      rw [← Option.some.inj hw2]
      exact hc
    · exact he g hg w2 hw2

/-- **C8 counterexample.** A template with 2 frames, each an empty landmark
array, yields `startPoint = none` (and `endPoint = none`): having at least 2
frames alone does not make the start/end points non-null. -/
theorem C8_counterexample :
    (⟨"bad", [[], []], 0, 2, ""⟩ : ExerciseTemplate).frames.length = 2 ∧
    (mkRepetitionStateMachine (⟨"bad", [[], []], 0, 2, ""⟩ : ExerciseTemplate) 0).startPoint = none ∧
    (mkRepetitionStateMachine (⟨"bad", [[], []], 0, 2, ""⟩ : ExerciseTemplate) 0).endPoint = none :=
  ⟨rfl, rfl, rfl⟩

/-! ## List min/max bounds -/

lemma foldl_min_le_init (l : List ℚ) (a : ℚ) : l.foldl min a ≤ a := by
  induction l generalizing a with
  | nil => exact le_refl a
  | cons b l ih =>
      exact le_trans (ih (min a b)) (min_le_left a b)

lemma foldl_min_le_mem (l : List ℚ) (a x : ℚ) (hx : x ∈ l) :
    l.foldl min a ≤ x := by
  induction l generalizing a with
  | nil => exact absurd hx (List.not_mem_nil x)
  | cons b l ih =>
      rcases List.mem_cons.1 hx with rfl | hx
      · exact le_trans (foldl_min_le_init l (min a x)) (min_le_right a x)
      · exact ih (min a b) hx

lemma init_le_foldl_max (l : List ℚ) (a : ℚ) : a ≤ l.foldl max a := by
  induction l generalizing a with
  | nil => exact le_refl a
  | cons b l ih =>
      exact le_trans (le_max_left a b) (ih (max a b))

lemma mem_le_foldl_max (l : List ℚ) (a x : ℚ) (hx : x ∈ l) :
    x ≤ l.foldl max a := by
  induction l generalizing a with
  | nil => exact absurd hx (List.not_mem_nil x)
  | cons b l ih =>
      rcases List.mem_cons.1 hx with rfl | hx
      · exact le_trans (le_max_right a x) (init_le_foldl_max l (max a x))
      · exact ih (max a b) hx

lemma listMin_le (l : List ℚ) (x : ℚ) (hx : x ∈ l) : listMin l ≤ x := by
  cases l with
  | nil => exact absurd hx (List.not_mem_nil x)
  | cons a rest =>
      rcases List.mem_cons.1 hx with rfl | hx
      · exact foldl_min_le_init rest x
      · exact foldl_min_le_mem rest a x hx

lemma le_listMax (l : List ℚ) (x : ℚ) (hx : x ∈ l) : x ≤ listMax l := by
  cases l with
  | nil => exact absurd hx (List.not_mem_nil x)
  | cons a rest =>
      rcases List.mem_cons.1 hx with rfl | hx
      · exact init_le_foldl_max rest x
      · exact mem_le_foldl_max rest a x hx

lemma normComponent_mem_Icc (v lo hi : ℚ) (h1 : lo ≤ v) (h2 : v ≤ hi) :
    0 ≤ normComponent v lo hi ∧ normComponent v lo hi ≤ 1 := by
  unfold normComponent
  split_ifs with h
  · norm_num
  · have hlt : 0 < hi - lo := lt_of_le_of_ne (by linarith) (Ne.symm h)
    constructor
    · exact div_nonneg (by linarith) (le_of_lt hlt)
    · rw [div_le_one hlt]
      linarith

/-- **C10.** `normalizePoseCoordinates` on a non-empty list returns a list of
the same length whose components all lie in `[0, 1]` (in this exact-rational
model there is no `NaN`: the `|| 0` fallback of the source, which replaces
the `0/0 = NaN` produced when an axis has `max = min`, is the zero branch of
`normComponent`); on a degenerate axis every component is `0`. -/
theorem C10_normalize_bounds (coords : List Point) (hne : coords ≠ []) :
    (normalizePoseCoordinates coords).length = coords.length ∧
    (∀ c ∈ normalizePoseCoordinates coords,
      0 ≤ c.x ∧ c.x ≤ 1 ∧ 0 ≤ c.y ∧ c.y ≤ 1 ∧ 0 ≤ c.z ∧ c.z ≤ 1) ∧
    (listMax (coords.map Point.x) = listMin (coords.map Point.x) →
      ∀ c ∈ normalizePoseCoordinates coords, c.x = 0) := by
  have hlen0 : ¬ coords.length = 0 := by simpa using hne
  refine ⟨?_, ?_, ?_⟩
  · simp only [normalizePoseCoordinates, if_neg hlen0, List.length_map]
  · intro c hc
    simp only [normalizePoseCoordinates, if_neg hlen0] at hc
    obtain ⟨orig, horig, rfl⟩ := List.mem_map.1 hc
    have hx : orig.x ∈ coords.map Point.x := List.mem_map_of_mem Point.x horig
    have hy : orig.y ∈ coords.map Point.y := List.mem_map_of_mem Point.y horig
    have hz : orig.z ∈ coords.map Point.z := List.mem_map_of_mem Point.z horig
    obtain ⟨hx0, hx1⟩ := normComponent_mem_Icc orig.x _ _
      (listMin_le _ _ hx) (le_listMax _ _ hx)
    obtain ⟨hy0, hy1⟩ := normComponent_mem_Icc orig.y _ _
      (listMin_le _ _ hy) (le_listMax _ _ hy)
    obtain ⟨hz0, hz1⟩ := normComponent_mem_Icc orig.z _ _
      (listMin_le _ _ hz) (le_listMax _ _ hz)
    exact ⟨hx0, hx1, hy0, hy1, hz0, hz1⟩
  · intro heq c hc
    simp only [normalizePoseCoordinates, if_neg hlen0] at hc
    obtain ⟨orig, horig, rfl⟩ := List.mem_map.1 hc
    show normComponent orig.x (listMin (coords.map Point.x))
      (listMax (coords.map Point.x)) = 0
    unfold normComponent
    rw [if_pos (by rw [heq, sub_self])]

/-! ## Concrete fixtures for the witnesses -/

/-- Origin point. -/
def pA : Point := ⟨0, 0, 0⟩

/-- A point one unit below the origin in image space. -/
def pB : Point := ⟨0, 1, 0⟩

/-- A 16-landmark pose with only the right wrist (index 15) and right
shoulder (index 11) present. -/
def poseWith (w sh : Point) : Pose :=
  [none, none, none, none, none, none, none, none, none, none, none,
   some sh, none, none, none, some w]

/-- The template start wrist of the C3 scenario (low position). -/
def s3 : Point := ⟨0.5, 0.8, 0⟩

/-- The template end wrist of the C3 scenario (high position). -/
def e3 : Point := ⟨0.5, 0.2, 0⟩

/-- A 6-landmark template frame with the wrist at index 4. -/
def frameWith (p : Point) : Frame :=
  [none, none, none, none, some p, none]

/-- A two-frame template: start low, end high. -/
def T3 : ExerciseTemplate :=
  ⟨"shoulder-raise", [frameWith s3, frameWith e3], 0, 2, ""⟩

/-- The empty-frames template. -/
def T0 : ExerciseTemplate := ⟨"empty", [], 0, 0, ""⟩

/-- An initialized machine whose timers are at 0 (used to exercise the
debounce guard at `now = 100`). -/
def mGuard : Machine :=
  ⟨0, RepState.waiting_for_start, 0.15, some pA, some pB, none, 0, 0⟩

/-- A machine carrying a negative proximity threshold. -/
def mNeg : Machine :=
  ⟨0, RepState.waiting_for_start, -1, some pA, some pB, none, 0, 0⟩

/-- The machines along the C3 scenario. -/
def c3m0 : Machine := mkRepetitionStateMachine T3 0

noncomputable def c3m1 : Machine := (processPose c3m0 (poseWith s3 pB) 1100).1

noncomputable def c3m2 : Machine := (processPose c3m1 (poseWith e3 pB) 2200).1

noncomputable def c3m3 : Machine := (processPose c3m2 (poseWith s3 pB) 3300).1

/-- Shoulder landmark for the two-arm selection witness. -/
def shB : Point := ⟨0, 1, 0⟩

/-- Right wrist for the two-arm selection witness (armHeight `0.5`). -/
def rwB : Point := ⟨0, 0.5, 0⟩

/-- Left wrist for the two-arm selection witness (armHeight `0.3`). -/
def lwB : Point := ⟨0, 0.7, 0⟩

/-- A 17-landmark pose with both wrists and both shoulders present. -/
def poseBoth : Pose :=
  [none, none, none, none, none, none, none, none, none, none, none,
   some shB, some shB, none, none, some rwB, some lwB]

/-- A 17-landmark pose with only the left wrist/shoulder present. -/
def poseLeftOnly : Pose :=
  [none, none, none, none, none, none, none, none, none, none, none,
   none, some shB, none, none, none, some rwB]

/-- Key-landmark array for the C7 witness: right shoulder (index 0) and right
wrist (index 4) at the same height, giving `armHeightPercent = 0.5`. -/
def lm7 : List Landmark :=
  [some ⟨0, 0.5, 0⟩, none, none, none, some ⟨0, 0.5, 0⟩, none, none, none]

/-- Input list for the C10 witness. -/
def coordsW : List Point := [⟨0, 0, 0⟩, ⟨1, 2, 4⟩]

/-! ## Witnesses -/

/-- Evaluation of the C3 fixture template's start/end points. -/
lemma T3_points :
    (mkRepetitionStateMachine T3 0).startPoint = some s3 ∧
    (mkRepetitionStateMachine T3 0).endPoint = some e3 := by
  obtain ⟨hsp, hep⟩ := mkRepetitionStateMachine_points T3 0 (by simp [T3])
  refine ⟨by rw [hsp]; rfl, ?_⟩
  rw [hep]
  show findPeakPosition [frameWith s3, frameWith e3] = some e3
  unfold findPeakPosition
  simp only [List.headD_cons, List.foldl_cons, List.foldl_nil]
  have h2 : extractWristPosition (frameWith e3) = some e3 := rfl
  have hstep1 : peakStep (none, frameWith s3) (frameWith s3) =
      (some s3.y, frameWith s3) := by
    simp [peakStep, show extractWristPosition (frameWith s3) = some s3 from rfl]
  have hstep2 : peakStep (some s3.y, frameWith s3) (frameWith e3) =
      (some e3.y, frameWith e3) := by
    simp only [peakStep, h2]
    rw [if_pos (by norm_num [e3, s3])]
  rw [hstep1, hstep2]
  exact h2

/-- Evaluation of `normalizePoseCoordinates` on the C10 fixture list. -/
lemma coordsW_eval :
    normalizePoseCoordinates coordsW = [⟨0, 0, 0⟩, ⟨1, 1, 1⟩] := by
  show normalizePoseCoordinates [⟨0, 0, 0⟩, ⟨1, 2, 4⟩] = [⟨0, 0, 0⟩, ⟨1, 1, 1⟩]
  unfold normalizePoseCoordinates
  rw [if_neg (by decide)]
  norm_num [listMin, listMax, normComponent]

/-- Witness for C2: at `now = 100` with both timers at `0`, the guard fires
and the machine is frozen while the result is computed for the old state. -/
theorem C2_debounce_guard_witness :
    (processPose mGuard (poseWith pA pB) 100).1.repState = mGuard.repState ∧
    (processPose mGuard (poseWith pA pB) 100).1.repCount = mGuard.repCount ∧
    (processPose mGuard (poseWith pA pB) 100).1.stateStartTime = mGuard.stateStartTime ∧
    (processPose mGuard (poseWith pA pB) 100).1.lastStateTransitionTime =
      mGuard.lastStateTransitionTime ∧
    (processPose mGuard (poseWith pA pB) 100).2.repState = mGuard.repState ∧
    (processPose mGuard (poseWith pA pB) 100).2.repCount = mGuard.repCount ∧
    (processPose mGuard (poseWith pA pB) 100).2.accuracy =
      round (calculateAccuracy mGuard.repState
        (calculate3DDistance (some pA) mGuard.startPoint)
        (calculate3DDistance (some pA) mGuard.endPoint)) ∧
    (processPose mGuard (poseWith pA pB) 100).2.feedback =
      (generateFeedback
        (calculateAccuracy mGuard.repState
          (calculate3DDistance (some pA) mGuard.startPoint)
          (calculate3DDistance (some pA) mGuard.endPoint)) mGuard.repState).feedback := by
  obtain ⟨h1, h2, h3, h4, h5, h6, h7⟩ :=
    C2_debounce_guard mGuard (poseWith pA pB) 100 (Or.inl (by decide))
  obtain ⟨h8, h9⟩ := h7 Arm.right pA rfl (by decide) (by decide)
  exact ⟨h1, h2, h3, h4, h5, h6, h8, h9⟩

/-- Witness for C3: the concrete two-frame template and the three-tick pose
sequence at times 1100/2200/3300 complete exactly one repetition. -/
theorem C3_full_cycle_witness :
    c3m0.repState = RepState.waiting_for_start ∧ c3m0.repCount = 0 ∧
    c3m1.repState = RepState.movement_in_progress ∧ c3m1.repCount = 0 ∧
    c3m2.repState = RepState.movement_at_end ∧ c3m2.repCount = 0 ∧
    c3m3.repState = RepState.waiting_for_start ∧ c3m3.repCount = 1 :=
  C3_full_cycle T3 s3 e3 (poseWith s3 pB) (poseWith e3 pB) (poseWith s3 pB)
    0 1100 2200 3300 c3m0 c3m1 c3m2 c3m3
    rfl T3_points.1 T3_points.2 rfl rfl rfl rfl rfl rfl
    (by decide) (by decide) (by decide) (by decide) (by decide) (by decide)

/-- Witness for C4: the empty pose is rejected with the machine unchanged,
and with the zero-frame template the counter stays 0 over a tick. -/
theorem C4_default_results_witness :
    (processPose mGuard [] 0).1 = mGuard ∧
    (processPose mGuard [] 0).2.accuracy = 0 ∧
    (processPose mGuard [] 0).2.points = 0 ∧
    (processPose mGuard [] 0).2.status = Status.poor ∧
    (processPose mGuard [] 0).2.repQuality = Quality.poor ∧
    ((processPose mGuard [] 0).2.feedback = "No pose data available" ∨
     (processPose mGuard [] 0).2.feedback = "Template not properly initialized") ∧
    (runPoses (mkRepetitionStateMachine T0 0) [([], 5)]).repCount = 0 ∧
    (runPoses (mkRepetitionStateMachine T0 0) [([], 5)]).repState =
      RepState.waiting_for_start := by
  obtain ⟨g1, g2, g3, g4, g5, g6, _, _⟩ :=
    C4_default_results.1 mGuard [] 0 (Or.inl (by decide))
  obtain ⟨g7, g8⟩ := C4_default_results.2 T0 0 [([], 5)] rfl
  exact ⟨g1, g2, g3, g4, g5, g6, g7, g8⟩

/-- Witness for C6: with both arms moving and the right one higher, `both` is
selected with the right wrist; with only the left pair present, `left` is
selected with the left wrist. -/
theorem C6_active_arm_selection_witness :
    (determineActiveArm poseBoth).activeArm = Arm.both ∧
    (determineActiveArm poseBoth).currentWrist = some rwB ∧
    determineActiveArm poseLeftOnly = ⟨Arm.left, some rwB⟩ := by
  obtain ⟨hboth, hright, _⟩ :=
    (C6_active_arm_selection.1 poseBoth rwB lwB shB shB rfl rfl rfl rfl).1
      (by norm_num [shB, rwB, abs]) (by norm_num [shB, lwB, abs])
  refine ⟨hboth, hright (by norm_num [shB, rwB, lwB]), ?_⟩
  exact C6_active_arm_selection.2 poseLeftOnly rwB shB rfl rfl (Or.inl rfl)

/-- Witness for C7: the fixture pose sits at `armHeightPercent = 0.5`, in the
`raising` band, with the linear accuracy value. -/
theorem C7_phase_classification_witness :
    (analyzeExercisePhase lm7 [[]] 0).phase = Phase.raising ∧
    (analyzeExercisePhase lm7 [[]] 0).accuracy =
      30 + 40 * ((((0.5 : ℚ) - 0.1) / 0.6 : ℚ) : ℝ) := by
  have h := C7_phase_classification lm7 [[]] 0 Arm.right
    ⟨0, 0.5, 0⟩ ⟨0, 0.5, 0⟩ 0.5 (by decide) (by simp) rfl (by norm_num)
  exact h.2.1 (by norm_num) (by norm_num)

/-- Witness for the amended C8: the two-frame fixture template yields the
first-frame wrist as `startPoint` and the highest wrist as `endPoint`. -/
theorem C8_template_points_witness :
    (mkRepetitionStateMachine T3 0).startPoint = some s3 ∧
    (mkRepetitionStateMachine T3 0).endPoint = some e3 :=
  ⟨(C8_template_points T3 0 s3 (by decide) rfl).1, T3_points.2⟩

/-- Witness for C9: a stored threshold of `-1` is kept verbatim, and a pose
that would otherwise transition leaves the machine frozen. -/
theorem C9_nonpositive_threshold_freezes_witness :
    (setProximityThreshold mGuard (-1)).proximityThreshold = -1 ∧
    (runPoses mNeg [(poseWith pA pB, 5000)]).repState =
      RepState.waiting_for_start ∧
    (runPoses mNeg [(poseWith pA pB, 5000)]).repCount = 0 := by
  have h := C9_nonpositive_threshold_freezes
  obtain ⟨hs, hc⟩ := h.2.2.2 mNeg [(poseWith pA pB, 5000)] (by norm_num [mNeg])
  refine ⟨h.1 mGuard (-1), ?_, ?_⟩
  · rw [hs]
    rfl
  · rw [hc]
    rfl

/-- Witness for C10: on a concrete two-point list the output has the same
length and the normalized point `(1,1,1)` is a member with clamped
components. -/
theorem C10_normalize_bounds_witness :
    (normalizePoseCoordinates coordsW).length = coordsW.length ∧
    (⟨1, 1, 1⟩ : Point) ∈ normalizePoseCoordinates coordsW ∧
    0 ≤ (⟨1, 1, 1⟩ : Point).x ∧ (⟨1, 1, 1⟩ : Point).x ≤ 1 := by
  have h := C10_normalize_bounds coordsW (by simp [coordsW])
  have hmem : (⟨1, 1, 1⟩ : Point) ∈ normalizePoseCoordinates coordsW := by
    rw [coordsW_eval]
    simp
  obtain ⟨h0, h1, _⟩ := h.2.1 _ hmem
  exact ⟨h.1, hmem, h0, h1⟩

end PhysioApp
